import Mathlib

/-!
Verification development for the roadrunner sync worker executor
(`SyncWorkerImpl.Exec`, `SyncWorkerImpl.ExecWithTTL`, `SyncWorkerImpl.execPayload`
from the worker package), shallowly embedded in Lean.

Bytes are modelled as `List Nat`; machine-word truncation is written explicitly
(`% 2^32`) where the Go code casts to `uint32`.  The worker state container
(the atomic state value, `NumExecs`, `LastUsed`) and the goridge frame flag
constants are external to the given source files and are modelled from the
spec where noted.  Concurrency (the supervisor mutating the state while the
payload exchange is in flight, context expiry racing the background
goroutine) is resolved by explicit environment oracles passed to the
embedded functions.
-/

namespace Roadrunner

/-- Modelled from the spec: the worker state lattice
`Inactive → Ready ⇄ Working → {Ready, Errored, Invalid}` with terminal states
`Stopped`, `Killed`, `Destroyed` (the worker state module is not among the
given source files). -/
inductive WState
  | inactive
  | ready
  | working
  | invalid
  | stopping
  | stopped
  | killed
  | errored
  | destroyed
deriving DecidableEq, Repr

/-- Modelled from the spec: the per-worker state container with an atomic
state value, an execution counter `NumExecs` and a `LastUsed` timestamp.
`Set` writes `value`, `RegisterExec` increments `numExecs`, `SetLastUsed`
writes `lastUsed`. -/
structure WorkerState where
  value : WState
  numExecs : Nat
  lastUsed : Nat
deriving DecidableEq, Repr

/-- The payload carried to and from a worker: `Context` bytes, `Body` bytes
and a one-byte codec id (package `payload`). -/
structure Payload where
  context : List Nat
  body : List Nat
  codec : Nat
deriving DecidableEq, Repr

/-- The goridge `frame.ERROR` flag bit carried in a response frame's flags
byte.  The constant lives in the external goridge library; only the bit
test `flags & ERROR != 0` matters to the executor. -/
def ERROR : Nat := 64

/-- The goridge `frame.VERSION_1` protocol version written into every
request frame. -/
def VERSION_1 : Nat := 1

/-- A request frame as assembled by `execPayload`: version, flags, the
option sequence, the payload length field, the payload bytes and the CRC
slot of the header. -/
structure Frame where
  version : Nat
  flags : Nat
  options : List Nat
  payloadLen : Nat
  payloadBytes : List Nat
  crc : Nat
deriving DecidableEq, Repr

/-- Modelled from the spec: the CRC is computed deterministically over the
header fields (version, flags, options, payload length), excluding the CRC
slot and the payload bytes.  The concrete checksum lives in the external
goridge library; any deterministic function of the header stands for it. -/
def headerCRC (version flags payloadLen : Nat) (options : List Nat) : Nat :=
  options.foldl (fun a o => (a * 31 + o) % 4294967296)
    ((version * 131 + flags * 31 + payloadLen) % 4294967296)

/-- The request frame built by `execPayload` before `Relay().Send`:
version `VERSION_1`, flags = the payload's codec byte, a single option
`uint32(len(p.Context))`, payload bytes `Context ‖ Body` with the payload
length field set to the buffer length, and the CRC written over the header. -/
def requestFrame (p : Payload) : Frame :=
  let payloadBytes := p.context ++ p.body
  { version := VERSION_1
    flags := p.codec
    options := [p.context.length % 4294967296]
    payloadLen := payloadBytes.length % 4294967296
    payloadBytes := payloadBytes
    crc := headerCRC VERSION_1 p.codec (payloadBytes.length % 4294967296)
      [p.context.length % 4294967296] }

/-- One atom of an error chain.  A spiral `errors.E(op, kind, err)` error
contributes its kind (and, for `SoftJob`, the message bytes); `ctxErr`
stands for the `ctx.Err()` cause and `killFail` for a failing `Kill`;
`multierr` combination concatenates chains. -/
inductive ErrAtom
  | empty
  | notReady (s : WState)
  | network
  | decode
  | softJob (msg : List Nat)
  | execTTL
  | ctxErr
  | killFail
deriving DecidableEq, Repr

/-- An error as observed by the caller: the chain of atoms reachable by
unwrapping (`errors.Is` walks this chain; `multierr` appends chains). -/
abbrev RRError := List ErrAtom

/-- `errors.Is(errors.SoftJob, err)`: the chain contains a SoftJob atom. -/
def isSoftJob (e : RRError) : Bool :=
  e.any fun a => match a with
    | .softJob _ => true
    | _ => false

/-- The relay's behaviour for one `execPayload` round trip: the send fails,
the receive fails, or a response frame with the given flags byte, options
and payload bytes is received. -/
inductive RelayResult
  | sendErr
  | recvErr
  | frame (flags : Nat) (options : List Nat) (payloadBytes : List Nat)
deriving DecidableEq, Repr

/-- `SyncWorkerImpl.execPayload`: build and send the request frame, receive
the response.  A failing send or receive is a `Network` error.  A response
with the `ERROR` flag set yields a `SoftJob` error whose message is the
frame's payload bytes.  Otherwise the options must have length exactly one
(else `Decode` error); the single option is the context offset: context =
`payload[:off]`, body = `payload[off:]`, codec = the response flags byte. -/
def execPayload (p : Payload) (r : RelayResult) : Except RRError Payload :=
  match p, r with
  | _, .sendErr => .error [.network]
  | _, .recvErr => .error [.network]
  | _, .frame flags options payloadBytes =>
    if flags &&& ERROR ≠ 0 then
      .error [.softJob payloadBytes]
    else
      match options with
      | [off] =>
        .ok { codec := flags
              body := payloadBytes.drop off
              context := payloadBytes.take off }
      | _ => .error [.decode]

/-- The environment of one `Exec` call: the current time (for `LastUsed`),
the relay's behaviour, and the supervisor's concurrent write to the state
value during the payload exchange (`none` when the supervisor does not
intervene, so the value is still `working` at completion). -/
structure ExecEnv where
  now : Nat
  relay : RelayResult
  sup : Option WState
deriving DecidableEq, Repr

/-- The observable outcome of an `Exec` call: the returned
payload-or-error, the worker state after the call, and the frames handed
to `Relay().Send`. -/
structure ExecOutcome where
  result : Except RRError Payload
  state : WorkerState
  sent : List Frame
deriving Repr

/-- `SyncWorkerImpl.Exec`.  Reject an empty payload, then a worker whose
state is not `Ready`.  Otherwise set `LastUsed`, set `Working`, run
`execPayload` (during which the supervisor may overwrite the state value).
On a non-SoftJob error set `Errored` and register the exec; on a SoftJob
error return it with no state write.  On success, register the exec and
restore `Ready` only if the state still reads `Working`. -/
def Exec (tw : WorkerState) (p : Payload) (env : ExecEnv) : ExecOutcome :=
  if p.body.length = 0 ∧ p.context.length = 0 then
    { result := .error [.empty], state := tw, sent := [] }
  else if tw.value ≠ WState.ready then
    { result := .error [.notReady tw.value], state := tw, sent := [] }
  else
    let st1 : WorkerState := { tw with lastUsed := env.now, value := WState.working }
    let st2 : WorkerState := { st1 with value := env.sup.getD WState.working }
    match execPayload p env.relay with
    | .error e =>
      if isSoftJob e then
        { result := .error e, state := st2, sent := [requestFrame p] }
      else
        { result := .error e
          state := { st2 with value := WState.errored, numExecs := st2.numExecs + 1 }
          sent := [requestFrame p] }
    | .ok rsp =>
      if st2.value ≠ WState.working then
        { result := .ok rsp
          state := { st2 with numExecs := st2.numExecs + 1 }
          sent := [requestFrame p] }
      else
        { result := .ok rsp
          state := { st2 with value := WState.ready, numExecs := st2.numExecs + 1 }
          sent := [requestFrame p] }

/-- The environment of one `ExecWithTTL` call: as for `Exec`, plus whether
the context expires before the background goroutine delivers its result,
and whether `Kill` fails on the expiry path. -/
structure TTLEnv where
  now : Nat
  relay : RelayResult
  sup : Option WState
  ctxExpired : Bool
  killFailed : Bool
deriving DecidableEq, Repr

/-- The observable outcome of an `ExecWithTTL` call: the returned
payload-or-error, the worker state after the call, whether `Kill` was
invoked, and the frames handed to `Relay().Send`. -/
structure TTLOutcome where
  result : Except RRError Payload
  state : WorkerState
  killed : Bool
  sent : List Frame
deriving Repr

/-- The error returned on the `ctx.Done()` branch of `ExecWithTTL`:
`err := multierr.Combine(tw.Kill())`; when `Kill` failed, the `ExecTTL`
error and then `ctx.Err()` are appended to it; otherwise
`errors.E(op, errors.ExecTTL, ctx.Err())` is returned. -/
def ttlError (killFailed : Bool) : RRError :=
  if killFailed then
    ([ErrAtom.killFail] ++ [ErrAtom.execTTL]) ++ [ErrAtom.ctxErr]
  else
    [ErrAtom.execTTL, ErrAtom.ctxErr]

/-- `SyncWorkerImpl.ExecWithTTL`.  Same preconditions as `Exec`; the
payload exchange and state updates run on a background goroutine; the
caller selects between context expiry and result delivery.  On expiry,
`Kill` is invoked (the kill transition itself lives outside the given
sources; per the spec it leaves the worker `Killed`) and a composite
TTL error is returned; otherwise the goroutine's result is returned. -/
def ExecWithTTL (tw : WorkerState) (p : Payload) (env : TTLEnv) : TTLOutcome :=
  if p.body.length = 0 ∧ p.context.length = 0 then
    { result := .error [.empty], state := tw, killed := false, sent := [] }
  else if tw.value ≠ WState.ready then
    { result := .error [.notReady tw.value], state := tw, killed := false, sent := [] }
  else
    let st1 : WorkerState := { tw with lastUsed := env.now, value := WState.working }
    let st2 : WorkerState := { st1 with value := env.sup.getD WState.working }
    let bg : WorkerState × Except RRError Payload :=
      match execPayload p env.relay with
      | .error e =>
        if isSoftJob e then (st2, .error e)
        else ({ st2 with value := WState.errored, numExecs := st2.numExecs + 1 }, .error e)
      | .ok rsp =>
        if st2.value ≠ WState.working then
          ({ st2 with numExecs := st2.numExecs + 1 }, .ok rsp)
        else
          ({ st2 with value := WState.ready, numExecs := st2.numExecs + 1 }, .ok rsp)
    if env.ctxExpired then
      { result := .error (ttlError env.killFailed)
        state := { bg.1 with value := WState.killed }
        killed := true
        sent := [requestFrame p] }
    else
      { result := bg.2, state := bg.1, killed := false, sent := [requestFrame p] }

/-- The error chain of a result, empty on success (used to speak about the
class of a returned error). -/
def errChain : Except RRError Payload → RRError
  | .error e => e
  | .ok _ => []

/-- Whether a result is a successful payload. -/
def isOkRes : Except RRError Payload → Bool
  | .ok _ => true
  | .error _ => false

/-! ### Branch lemmas for `Exec` and `ExecWithTTL` past the preconditions -/

/-- Past the preconditions, a SoftJob exchange error is returned with no
state write after the exchange: no `Errored`, no `RegisterExec`. -/
theorem Exec_err_soft (tw : WorkerState) (p : Payload) (env : ExecEnv) (e : RRError)
    (hb : ¬ (p.body.length = 0 ∧ p.context.length = 0))
    (hst : tw.value = WState.ready)
    (hE : execPayload p env.relay = .error e)
    (hS : isSoftJob e = true) :
    Exec tw p env =
      ⟨.error e, ⟨env.sup.getD WState.working, tw.numExecs, env.now⟩, [requestFrame p]⟩ := by
  unfold Exec
  rw [if_neg hb, if_neg (by simp [hst]), hE]
  simp [hS]

/-- Past the preconditions, a non-SoftJob exchange error sets `Errored` and
registers the exec. -/
theorem Exec_err_hard (tw : WorkerState) (p : Payload) (env : ExecEnv) (e : RRError)
    (hb : ¬ (p.body.length = 0 ∧ p.context.length = 0))
    (hst : tw.value = WState.ready)
    (hE : execPayload p env.relay = .error e)
    (hS : isSoftJob e = false) :
    Exec tw p env =
      ⟨.error e, ⟨WState.errored, tw.numExecs + 1, env.now⟩, [requestFrame p]⟩ := by
  unfold Exec
  rw [if_neg hb, if_neg (by simp [hst]), hE]
  simp [hS]

/-- Past the preconditions, a successful exchange registers the exec and
restores `Ready` when the state still reads `Working`, otherwise keeps the
supervised value. -/
theorem Exec_ok (tw : WorkerState) (p : Payload) (env : ExecEnv) (rsp : Payload)
    (hb : ¬ (p.body.length = 0 ∧ p.context.length = 0))
    (hst : tw.value = WState.ready)
    (hE : execPayload p env.relay = .ok rsp) :
    Exec tw p env =
      ⟨.ok rsp,
        ⟨if env.sup.getD WState.working = WState.working then WState.ready
          else env.sup.getD WState.working, tw.numExecs + 1, env.now⟩,
        [requestFrame p]⟩ := by
  unfold Exec
  rw [if_neg hb, if_neg (by simp [hst]), hE]
  by_cases hsup : env.sup.getD WState.working = WState.working <;> simp [hsup]

/-- Past the preconditions and with the result delivered before context
expiry, `ExecWithTTL`'s background goroutine behaves exactly like `Exec`:
SoftJob error case. -/
theorem TTL_err_soft (tw : WorkerState) (p : Payload) (env : TTLEnv) (e : RRError)
    (hb : ¬ (p.body.length = 0 ∧ p.context.length = 0))
    (hst : tw.value = WState.ready)
    (hT : env.ctxExpired = false)
    (hE : execPayload p env.relay = .error e)
    (hS : isSoftJob e = true) :
    ExecWithTTL tw p env =
      ⟨.error e, ⟨env.sup.getD WState.working, tw.numExecs, env.now⟩, false,
        [requestFrame p]⟩ := by
  unfold ExecWithTTL
  rw [if_neg hb, if_neg (by simp [hst]), hE]
  simp [hS, hT]

/-- Delivered non-SoftJob exchange error in `ExecWithTTL`: sets `Errored`
and registers the exec. -/
theorem TTL_err_hard (tw : WorkerState) (p : Payload) (env : TTLEnv) (e : RRError)
    (hb : ¬ (p.body.length = 0 ∧ p.context.length = 0))
    (hst : tw.value = WState.ready)
    (hT : env.ctxExpired = false)
    (hE : execPayload p env.relay = .error e)
    (hS : isSoftJob e = false) :
    ExecWithTTL tw p env =
      ⟨.error e, ⟨WState.errored, tw.numExecs + 1, env.now⟩, false,
        [requestFrame p]⟩ := by
  unfold ExecWithTTL
  rw [if_neg hb, if_neg (by simp [hst]), hE]
  simp [hS, hT]

/-- Delivered successful exchange in `ExecWithTTL`: registers the exec and
restores `Ready` unless the supervisor preempted. -/
theorem TTL_ok (tw : WorkerState) (p : Payload) (env : TTLEnv) (rsp : Payload)
    (hb : ¬ (p.body.length = 0 ∧ p.context.length = 0))
    (hst : tw.value = WState.ready)
    (hT : env.ctxExpired = false)
    (hE : execPayload p env.relay = .ok rsp) :
    ExecWithTTL tw p env =
      ⟨.ok rsp,
        ⟨if env.sup.getD WState.working = WState.working then WState.ready
          else env.sup.getD WState.working, tw.numExecs + 1, env.now⟩,
        false, [requestFrame p]⟩ := by
  unfold ExecWithTTL
  rw [if_neg hb, if_neg (by simp [hst]), hE]
  by_cases hsup : env.sup.getD WState.working = WState.working <;> simp [hsup, hT]

/-- Context expiry in `ExecWithTTL`: `Kill` is invoked and the composite
TTL error is returned, whatever the relay did. -/
theorem TTL_expired (tw : WorkerState) (p : Payload) (env : TTLEnv)
    (hb : ¬ (p.body.length = 0 ∧ p.context.length = 0))
    (hst : tw.value = WState.ready)
    (hT : env.ctxExpired = true) :
    (ExecWithTTL tw p env).result = .error (ttlError env.killFailed)
    ∧ (ExecWithTTL tw p env).killed = true
    ∧ (ExecWithTTL tw p env).sent = [requestFrame p] := by
  unfold ExecWithTTL
  rw [if_neg hb, if_neg (by simp [hst])]
  cases hE : execPayload p env.relay <;> simp [hT, hE]

/-! ### Claim theorems -/

/-- C1 counterexample: a concrete `Exec` call past the preconditions
receives an `ERROR`-flagged response, returns a SoftJob-class error, and
leaves `NumExecs` at 5 instead of incrementing it to 6 — the claim that a
SoftJob return increments `NumExecs` by exactly one fails on the code. -/
theorem C1_counterexample :
    isSoftJob (errChain (Exec ⟨WState.ready, 5, 0⟩ ⟨[1], [2], 0⟩
        ⟨100, RelayResult.frame 64 [] [7], none⟩).result) = true
    ∧ ¬ (Exec ⟨WState.ready, 5, 0⟩ ⟨[1], [2], 0⟩
        ⟨100, RelayResult.frame 64 [] [7], none⟩).state.numExecs = 5 + 1 := by
  exact ⟨rfl, by decide⟩

/-- C1 (amended): past the preconditions, `Exec` (and the background
execution path of `ExecWithTTL`, when its result is delivered) increments
`NumExecs` by exactly one on success and on error classes other than
SoftJob; a SoftJob-class error leaves `NumExecs` unchanged. -/
theorem C1_numExecs (tw : WorkerState) (p : Payload) (env : ExecEnv) (tenv : TTLEnv)
    (hb : ¬ (p.body.length = 0 ∧ p.context.length = 0))
    (hst : tw.value = WState.ready)
    (hT : tenv.ctxExpired = false) :
    ((isOkRes (Exec tw p env).result = true →
        (Exec tw p env).state.numExecs = tw.numExecs + 1)
      ∧ (isSoftJob (errChain (Exec tw p env).result) = true →
        (Exec tw p env).state.numExecs = tw.numExecs)
      ∧ (isOkRes (Exec tw p env).result = false →
          isSoftJob (errChain (Exec tw p env).result) = false →
        (Exec tw p env).state.numExecs = tw.numExecs + 1))
    ∧ ((isOkRes (ExecWithTTL tw p tenv).result = true →
        (ExecWithTTL tw p tenv).state.numExecs = tw.numExecs + 1)
      ∧ (isSoftJob (errChain (ExecWithTTL tw p tenv).result) = true →
        (ExecWithTTL tw p tenv).state.numExecs = tw.numExecs)
      ∧ (isOkRes (ExecWithTTL tw p tenv).result = false →
          isSoftJob (errChain (ExecWithTTL tw p tenv).result) = false →
        (ExecWithTTL tw p tenv).state.numExecs = tw.numExecs + 1)) := by
  constructor
  · cases hE : execPayload p env.relay with
    | error e =>
      cases hS : isSoftJob e with
      | true => rw [Exec_err_soft tw p env e hb hst hE hS]; simp [isOkRes, errChain, hS]
      | false => rw [Exec_err_hard tw p env e hb hst hE hS]; simp [isOkRes, errChain, hS]
    | ok rsp =>
      rw [Exec_ok tw p env rsp hb hst hE]; simp [isOkRes, errChain, isSoftJob]
  · cases hE : execPayload p tenv.relay with
    | error e =>
      cases hS : isSoftJob e with
      | true => rw [TTL_err_soft tw p tenv e hb hst hT hE hS]; simp [isOkRes, errChain, hS]
      | false => rw [TTL_err_hard tw p tenv e hb hst hT hE hS]; simp [isOkRes, errChain, hS]
    | ok rsp =>
      rw [TTL_ok tw p tenv rsp hb hst hT hE]; simp [isOkRes, errChain, isSoftJob]

/-- C1 witness: at a concrete ready worker with 5 prior execs and a
successful round trip, the count moves to exactly 6. -/
theorem C1_witness :
    (Exec ⟨WState.ready, 5, 0⟩ ⟨[1], [], 0⟩
        ⟨100, RelayResult.frame 0 [1] [7, 8], none⟩).state.numExecs = 5 + 1 :=
  (C1_numExecs ⟨WState.ready, 5, 0⟩ ⟨[1], [], 0⟩
      ⟨100, RelayResult.frame 0 [1] [7, 8], none⟩
      ⟨100, RelayResult.frame 0 [1] [7, 8], none, false, false⟩
      (by decide) rfl rfl).1.1 rfl

/-- C2 counterexample: a concrete `Exec` call with an empty payload returns
an `Empty`-class error — a class other than SoftJob — yet the worker's
state stays `Ready`, not `Errored`; the claim that every non-SoftJob error
promotes the worker to `Errored` fails on the code. -/
theorem C2_counterexample :
    (Exec ⟨WState.ready, 5, 0⟩ ⟨[], [], 0⟩ ⟨100, RelayResult.sendErr, none⟩).result
      = Except.error [ErrAtom.empty]
    ∧ isSoftJob (errChain (Exec ⟨WState.ready, 5, 0⟩ ⟨[], [], 0⟩
        ⟨100, RelayResult.sendErr, none⟩).result) = false
    ∧ ¬ (Exec ⟨WState.ready, 5, 0⟩ ⟨[], [], 0⟩
        ⟨100, RelayResult.sendErr, none⟩).state.value = WState.errored := by
  exact ⟨rfl, rfl, by decide⟩

/-- C2 (amended): among errors produced by the payload exchange (delivered,
for `ExecWithTTL`, before context expiry), every class other than SoftJob
sets the worker's state to `Errored`, and a SoftJob error leaves the state
exactly as the exchange left it; precondition errors (`Empty`, `NotReady`)
leave the state unchanged and are outside this rule. -/
theorem C2_errored (tw : WorkerState) (p : Payload) (env : ExecEnv) (tenv : TTLEnv)
    (hb : ¬ (p.body.length = 0 ∧ p.context.length = 0))
    (hst : tw.value = WState.ready)
    (hT : tenv.ctxExpired = false) :
    (∀ e, (Exec tw p env).result = .error e →
      (isSoftJob e = false → (Exec tw p env).state.value = WState.errored)
      ∧ (isSoftJob e = true →
          (Exec tw p env).state.value = env.sup.getD WState.working))
    ∧ (∀ e, (ExecWithTTL tw p tenv).result = .error e →
      (isSoftJob e = false → (ExecWithTTL tw p tenv).state.value = WState.errored)
      ∧ (isSoftJob e = true →
          (ExecWithTTL tw p tenv).state.value = tenv.sup.getD WState.working)) := by
  constructor
  · intro e he
    cases hE : execPayload p env.relay with
    | error e0 =>
      cases hS : isSoftJob e0 with
      | true =>
        rw [Exec_err_soft tw p env e0 hb hst hE hS] at he ⊢
        cases he
        exact ⟨fun h => (by rw [h] at hS; cases hS), fun _ => rfl⟩
      | false =>
        rw [Exec_err_hard tw p env e0 hb hst hE hS] at he ⊢
        cases he
        exact ⟨fun _ => rfl, fun h => (by rw [h] at hS; cases hS)⟩
    | ok rsp =>
      rw [Exec_ok tw p env rsp hb hst hE] at he
      cases he
  · intro e he
    cases hE : execPayload p tenv.relay with
    | error e0 =>
      cases hS : isSoftJob e0 with
      | true =>
        rw [TTL_err_soft tw p tenv e0 hb hst hT hE hS] at he ⊢
        cases he
        exact ⟨fun h => (by rw [h] at hS; cases hS), fun _ => rfl⟩
      | false =>
        rw [TTL_err_hard tw p tenv e0 hb hst hT hE hS] at he ⊢
        cases he
        exact ⟨fun _ => rfl, fun h => (by rw [h] at hS; cases hS)⟩
    | ok rsp =>
      rw [TTL_ok tw p tenv rsp hb hst hT hE] at he
      cases he

/-- C2 witness: a concrete `Decode`-class exchange error (two response
options) promotes a ready worker to `Errored`. -/
theorem C2_witness :
    (Exec ⟨WState.ready, 0, 0⟩ ⟨[1], [], 0⟩
        ⟨100, RelayResult.frame 0 [1, 2] [7, 8], none⟩).state.value = WState.errored :=
  ((C2_errored ⟨WState.ready, 0, 0⟩ ⟨[1], [], 0⟩
      ⟨100, RelayResult.frame 0 [1, 2] [7, 8], none⟩
      ⟨100, RelayResult.frame 0 [1, 2] [7, 8], none, false, false⟩
      (by decide) rfl rfl).1 [ErrAtom.decode] rfl).1 rfl

/-- C3: when the received response frame carries the `ERROR` flag bit,
`Exec` returns a SoftJob-class error whose message is exactly the frame's
payload bytes, and the executor writes no state after the exchange: the
state value is whatever the exchange (supervisor included) left it at. -/
theorem C3_error_flag_softjob (tw : WorkerState) (p : Payload) (env : ExecEnv)
    (flags : Nat) (options payloadBytes : List Nat)
    (hb : ¬ (p.body.length = 0 ∧ p.context.length = 0))
    (hst : tw.value = WState.ready)
    (hrel : env.relay = .frame flags options payloadBytes)
    (hflag : flags &&& ERROR ≠ 0) :
    (Exec tw p env).result = .error [.softJob payloadBytes]
    ∧ (Exec tw p env).state.value = env.sup.getD WState.working := by
  have hE : execPayload p env.relay = .error [.softJob payloadBytes] := by
    rw [hrel]; simp only [execPayload]; rw [if_pos hflag]
  rw [Exec_err_soft tw p env [.softJob payloadBytes] hb hst hE rfl]
  exact ⟨rfl, rfl⟩

/-- C3 witness: concrete ERROR-flagged response with payload bytes `[5, 6]`
on a ready worker yields the SoftJob error `[5, 6]` and leaves the state
value `Working` (no supervisor intervention, no executor write). -/
theorem C3_witness :
    (Exec ⟨WState.ready, 0, 0⟩ ⟨[1], [], 0⟩
        ⟨7, RelayResult.frame 64 [2] [5, 6], none⟩).result
      = Except.error [ErrAtom.softJob [5, 6]]
    ∧ (Exec ⟨WState.ready, 0, 0⟩ ⟨[1], [], 0⟩
        ⟨7, RelayResult.frame 64 [2] [5, 6], none⟩).state.value = WState.working :=
  C3_error_flag_softjob ⟨WState.ready, 0, 0⟩ ⟨[1], [], 0⟩
    ⟨7, RelayResult.frame 64 [2] [5, 6], none⟩ 64 [2] [5, 6]
    (by decide) rfl rfl (by decide)

/-- C4: when the payload exchange succeeds, both `Exec` and the delivered
background path of `ExecWithTTL` restore `Ready` exactly when the state
still reads `Working` at completion, keep the supervisor's value otherwise,
and increment `NumExecs` in both branches. -/
theorem C4_success_transition (tw : WorkerState) (p : Payload) (env : ExecEnv)
    (tenv : TTLEnv) (rsp rsp2 : Payload)
    (hb : ¬ (p.body.length = 0 ∧ p.context.length = 0))
    (hst : tw.value = WState.ready)
    (hT : tenv.ctxExpired = false)
    (hok : execPayload p env.relay = .ok rsp)
    (hok2 : execPayload p tenv.relay = .ok rsp2) :
    ((env.sup.getD WState.working = WState.working →
        (Exec tw p env).state.value = WState.ready)
      ∧ (env.sup.getD WState.working ≠ WState.working →
        (Exec tw p env).state.value = env.sup.getD WState.working)
      ∧ (Exec tw p env).state.numExecs = tw.numExecs + 1)
    ∧ ((tenv.sup.getD WState.working = WState.working →
        (ExecWithTTL tw p tenv).state.value = WState.ready)
      ∧ (tenv.sup.getD WState.working ≠ WState.working →
        (ExecWithTTL tw p tenv).state.value = tenv.sup.getD WState.working)
      ∧ (ExecWithTTL tw p tenv).state.numExecs = tw.numExecs + 1) := by
  rw [Exec_ok tw p env rsp hb hst hok, TTL_ok tw p tenv rsp2 hb hst hT hok2]
  refine ⟨⟨fun h => ?_, fun h => ?_, rfl⟩, ⟨fun h => ?_, fun h => ?_, rfl⟩⟩
  · simp [h]
  · simp [h]
  · simp [h]
  · simp [h]

/-- C4 witness: a ready worker, a successful round trip, and a supervisor
that set `Stopping` mid-call for the TTL variant: `Exec` restores `Ready`,
`ExecWithTTL` keeps `Stopping`, and both count the exec. -/
theorem C4_witness :
    (Exec ⟨WState.ready, 3, 0⟩ ⟨[1], [], 0⟩
        ⟨9, RelayResult.frame 0 [1] [7, 8], none⟩).state.value = WState.ready
    ∧ (ExecWithTTL ⟨WState.ready, 3, 0⟩ ⟨[1], [], 0⟩
        ⟨9, RelayResult.frame 0 [1] [7, 8], some WState.stopping, false, false⟩).state.value
      = WState.stopping
    ∧ (Exec ⟨WState.ready, 3, 0⟩ ⟨[1], [], 0⟩
        ⟨9, RelayResult.frame 0 [1] [7, 8], none⟩).state.numExecs = 3 + 1 := by
  have h := C4_success_transition ⟨WState.ready, 3, 0⟩ ⟨[1], [], 0⟩
    ⟨9, RelayResult.frame 0 [1] [7, 8], none⟩
    ⟨9, RelayResult.frame 0 [1] [7, 8], some WState.stopping, false, false⟩
    ⟨[7], [8], 0⟩ ⟨[7], [8], 0⟩ (by decide) rfl rfl rfl rfl
  exact ⟨h.1.1 rfl, h.2.2.1 (by decide), h.1.2.2⟩

/-- C5: for a response frame without the `ERROR` flag, if the options are
exactly one in-bounds offset `off` then `Exec` returns the payload with
context = the first `off` payload bytes, body = the rest, codec = the
frame's flags byte, and the context and body lengths sum to the frame's
payload length; if the option count is not one, `Exec` returns a
Decode-class error. -/
theorem C5_response_decode (tw : WorkerState) (p : Payload) (env : ExecEnv)
    (flags off : Nat) (options payloadBytes : List Nat)
    (hb : ¬ (p.body.length = 0 ∧ p.context.length = 0))
    (hst : tw.value = WState.ready)
    (hrel : env.relay = .frame flags options payloadBytes)
    (hflag : flags &&& ERROR = 0) :
    (options = [off] → off ≤ payloadBytes.length →
      (Exec tw p env).result =
        .ok ⟨payloadBytes.take off, payloadBytes.drop off, flags⟩
      ∧ (payloadBytes.take off).length + (payloadBytes.drop off).length
          = payloadBytes.length)
    ∧ (options.length ≠ 1 → (Exec tw p env).result = .error [.decode]) := by
  constructor
  · intro hopt hoff
    have hE : execPayload p env.relay =
        .ok ⟨payloadBytes.take off, payloadBytes.drop off, flags⟩ := by
      rw [hrel]; simp only [execPayload]
      rw [if_neg (by simp [hflag]), hopt]
    rw [Exec_ok tw p env _ hb hst hE]
    refine ⟨rfl, ?_⟩
    rw [← List.length_append, List.take_append_drop]
  · intro hopt
    have hE : execPayload p env.relay = .error [.decode] := by
      rw [hrel]; simp only [execPayload]
      rw [if_neg (by simp [hflag])]
      match options, hopt with
      | [], _ => rfl
      | a :: b :: rest, _ => rfl
      | [a], h => exact absurd rfl h
    rw [Exec_err_hard tw p env [.decode] hb hst hE rfl]

/-- C5 witness: response flags 8, single option 2 over payload `[5, 6, 7]`
splits into context `[5, 6]` and body `[7]` with codec 8, lengths summing
to 3; and the same frame with two options yields a Decode error. -/
theorem C5_witness :
    ((Exec ⟨WState.ready, 0, 0⟩ ⟨[1], [], 0⟩
        ⟨7, RelayResult.frame 8 [2] [5, 6, 7], none⟩).result
      = Except.ok ⟨[5, 6], [7], 8⟩
     ∧ 2 + 1 = 3)
    ∧ (Exec ⟨WState.ready, 0, 0⟩ ⟨[1], [], 0⟩
        ⟨7, RelayResult.frame 8 [2, 9] [5, 6, 7], none⟩).result
      = Except.error [ErrAtom.decode] := by
  constructor
  · exact (C5_response_decode ⟨WState.ready, 0, 0⟩ ⟨[1], [], 0⟩
      ⟨7, RelayResult.frame 8 [2] [5, 6, 7], none⟩ 8 2 [2] [5, 6, 7]
      (by decide) rfl rfl (by decide)).1 rfl (by decide)
  · exact (C5_response_decode ⟨WState.ready, 0, 0⟩ ⟨[1], [], 0⟩
      ⟨7, RelayResult.frame 8 [2, 9] [5, 6, 7], none⟩ 8 2 [2, 9] [5, 6, 7]
      (by decide) rfl rfl (by decide)).2 (by decide)

/-- C6: an `Exec` or `ExecWithTTL` call with an empty payload (both context
and body empty) returns an `Empty`-class error, and a call with a non-empty
payload on a worker whose state is not exactly `Ready` returns a
`NotReady`-class error; in both cases nothing is sent over the relay. -/
theorem C6_preconditions (tw1 tw2 : WorkerState) (p q : Payload)
    (env : ExecEnv) (tenv : TTLEnv)
    (hp : p.body.length = 0 ∧ p.context.length = 0)
    (hq : ¬ (q.body.length = 0 ∧ q.context.length = 0))
    (hw : tw2.value ≠ WState.ready) :
    ((Exec tw1 p env).result = .error [.empty] ∧ (Exec tw1 p env).sent = [])
    ∧ ((ExecWithTTL tw1 p tenv).result = .error [.empty]
        ∧ (ExecWithTTL tw1 p tenv).sent = [])
    ∧ ((Exec tw2 q env).result = .error [.notReady tw2.value]
        ∧ (Exec tw2 q env).sent = [])
    ∧ ((ExecWithTTL tw2 q tenv).result = .error [.notReady tw2.value]
        ∧ (ExecWithTTL tw2 q tenv).sent = []) := by
  unfold Exec ExecWithTTL
  rw [if_pos hp, if_pos hp, if_neg hq, if_neg hq, if_pos (by simp [hw]),
    if_pos (by simp [hw])]
  exact ⟨⟨rfl, rfl⟩, ⟨rfl, rfl⟩, ⟨rfl, rfl⟩, ⟨rfl, rfl⟩⟩

/-- C6 witness: the empty payload is rejected `Empty` on a ready worker and
a non-empty payload is rejected `NotReady` on a working worker, nothing
sent in either case. -/
theorem C6_witness :
    (Exec ⟨WState.ready, 0, 0⟩ ⟨[], [], 0⟩ ⟨7, RelayResult.sendErr, none⟩).result
      = Except.error [ErrAtom.empty]
    ∧ (Exec ⟨WState.working, 0, 0⟩ ⟨[1], [], 0⟩ ⟨7, RelayResult.sendErr, none⟩).result
      = Except.error [ErrAtom.notReady WState.working]
    ∧ (ExecWithTTL ⟨WState.working, 0, 0⟩ ⟨[1], [], 0⟩
        ⟨7, RelayResult.sendErr, none, false, false⟩).sent = [] := by
  have h := C6_preconditions ⟨WState.ready, 0, 0⟩ ⟨WState.working, 0, 0⟩
    ⟨[], [], 0⟩ ⟨[1], [], 0⟩ ⟨7, RelayResult.sendErr, none⟩
    ⟨7, RelayResult.sendErr, none, false, false⟩
    (by decide) (by decide) (by decide)
  exact ⟨h.1.1, h.2.2.1.1, h.2.2.2.2⟩

/-- C7: when the context expires before the background execution delivers,
`ExecWithTTL` invokes `Kill` and returns a composite error containing both
the `ExecTTL` class tag and the context's error; a failing `Kill` has its
error appended to the composite rather than replacing the TTL error. -/
theorem C7_ttl_expiry (tw : WorkerState) (p : Payload) (tenv : TTLEnv)
    (hb : ¬ (p.body.length = 0 ∧ p.context.length = 0))
    (hst : tw.value = WState.ready)
    (hexp : tenv.ctxExpired = true) :
    (ExecWithTTL tw p tenv).killed = true
    ∧ ∃ e, (ExecWithTTL tw p tenv).result = .error e
        ∧ ErrAtom.execTTL ∈ e ∧ ErrAtom.ctxErr ∈ e
        ∧ (tenv.killFailed = true → ErrAtom.killFail ∈ e) := by
  obtain ⟨hres, hkill, -⟩ := TTL_expired tw p tenv hb hst hexp
  refine ⟨hkill, ttlError tenv.killFailed, hres, ?_, ?_, ?_⟩
  · simp only [ttlError]; cases tenv.killFailed <;> simp
  · simp only [ttlError]; cases tenv.killFailed <;> simp
  · intro hk; simp [ttlError, hk]

/-- C7 witness: a concrete expired call with a failing `Kill`: the worker
is killed and the returned chain holds the kill failure, the `ExecTTL` tag
and the context error together. -/
theorem C7_witness :
    (ExecWithTTL ⟨WState.ready, 0, 0⟩ ⟨[1], [], 0⟩
        ⟨7, RelayResult.frame 0 [1] [9], none, true, true⟩).killed = true
    ∧ ∃ e, (ExecWithTTL ⟨WState.ready, 0, 0⟩ ⟨[1], [], 0⟩
        ⟨7, RelayResult.frame 0 [1] [9], none, true, true⟩).result = .error e
        ∧ ErrAtom.execTTL ∈ e ∧ ErrAtom.ctxErr ∈ e
        ∧ (true = true → ErrAtom.killFail ∈ e) :=
  C7_ttl_expiry ⟨WState.ready, 0, 0⟩ ⟨[1], [], 0⟩
    ⟨7, RelayResult.frame 0 [1] [9], none, true, true⟩ (by decide) rfl rfl

/-- C8: for every payload accepted by `Exec`, the request frame handed to
the relay is exactly one frame with version 1, flags equal to the payload's
codec byte, a single option `len(Context)`, payload bytes `Context ‖ Body`
with the payload length field their total length, and the CRC written over
the header fields (lengths below the `uint32` bound). -/
theorem C8_request_encoding (tw : WorkerState) (p : Payload) (env : ExecEnv)
    (hb : ¬ (p.body.length = 0 ∧ p.context.length = 0))
    (hst : tw.value = WState.ready)
    (hctx : p.context.length < 4294967296)
    (htot : p.context.length + p.body.length < 4294967296) :
    (Exec tw p env).sent = [requestFrame p]
    ∧ (requestFrame p).version = 1
    ∧ (requestFrame p).flags = p.codec
    ∧ (requestFrame p).options = [p.context.length]
    ∧ (requestFrame p).payloadBytes = p.context ++ p.body
    ∧ (requestFrame p).payloadLen = p.context.length + p.body.length
    ∧ (requestFrame p).crc = headerCRC (requestFrame p).version (requestFrame p).flags
        (requestFrame p).payloadLen (requestFrame p).options := by
  refine ⟨?_, rfl, rfl, ?_, rfl, ?_, rfl⟩
  · cases hE : execPayload p env.relay with
    | error e =>
      cases hS : isSoftJob e with
      | true => rw [Exec_err_soft tw p env e hb hst hE hS]
      | false => rw [Exec_err_hard tw p env e hb hst hE hS]
    | ok rsp => rw [Exec_ok tw p env rsp hb hst hE]
  · show [p.context.length % 4294967296] = [p.context.length]
    rw [Nat.mod_eq_of_lt hctx]
  · show (p.context ++ p.body).length % 4294967296 = p.context.length + p.body.length
    rw [List.length_append, Nat.mod_eq_of_lt htot]

/-- C8 witness: payload context `[1, 2]`, body `[3]`, codec 5 produces one
sent frame with option `[2]`, payload `[1, 2, 3]` of length 3. -/
theorem C8_witness :
    (Exec ⟨WState.ready, 0, 0⟩ ⟨[1, 2], [3], 5⟩ ⟨7, RelayResult.recvErr, none⟩).sent
      = [requestFrame ⟨[1, 2], [3], 5⟩]
    ∧ (requestFrame ⟨[1, 2], [3], 5⟩).options = [2]
    ∧ (requestFrame ⟨[1, 2], [3], 5⟩).payloadLen = 2 + 1 :=
  have h := C8_request_encoding ⟨WState.ready, 0, 0⟩ ⟨[1, 2], [3], 5⟩
    ⟨7, RelayResult.recvErr, none⟩ (by decide) rfl (by decide) (by decide)
  ⟨h.1, h.2.2.2.1, h.2.2.2.2.2.1⟩

/-- C9: a call rejected at the preconditions (empty payload, or state not
`Ready`) leaves the worker's observable state — value, `NumExecs` and
`LastUsed` — exactly as it was, for both `Exec` and `ExecWithTTL`. -/
theorem C9_reject_no_mutation (tw : WorkerState) (p : Payload) (env : ExecEnv)
    (tenv : TTLEnv)
    (h : (p.body.length = 0 ∧ p.context.length = 0) ∨ tw.value ≠ WState.ready) :
    (Exec tw p env).state = tw ∧ (ExecWithTTL tw p tenv).state = tw := by
  unfold Exec ExecWithTTL
  rcases h with h | h
  · rw [if_pos h, if_pos h]
    exact ⟨rfl, rfl⟩
  · by_cases hp : p.body.length = 0 ∧ p.context.length = 0
    · rw [if_pos hp, if_pos hp]
      exact ⟨rfl, rfl⟩
    · rw [if_neg hp, if_neg hp, if_pos h, if_pos h]
      exact ⟨rfl, rfl⟩

/-- C9 witness: a working (not ready) worker with 4 execs and last-used 9
is returned untouched by both rejected calls. -/
theorem C9_witness :
    (Exec ⟨WState.working, 4, 9⟩ ⟨[1], [], 0⟩ ⟨7, RelayResult.sendErr, none⟩).state
      = ⟨WState.working, 4, 9⟩
    ∧ (ExecWithTTL ⟨WState.working, 4, 9⟩ ⟨[1], [], 0⟩
        ⟨7, RelayResult.sendErr, none, false, false⟩).state = ⟨WState.working, 4, 9⟩ :=
  C9_reject_no_mutation ⟨WState.working, 4, 9⟩ ⟨[1], [], 0⟩
    ⟨7, RelayResult.sendErr, none⟩ ⟨7, RelayResult.sendErr, none, false, false⟩
    (Or.inr (by decide))

/-- C10: an `ERROR`-flagged response yields a SoftJob-class error whatever
the frame's option count — here an option count different from one — and in
particular never the Decode-class error that a flag-less frame with that
option count would produce. -/
theorem C10_error_before_options (tw : WorkerState) (p : Payload) (env : ExecEnv)
    (flags : Nat) (options payloadBytes : List Nat)
    (hb : ¬ (p.body.length = 0 ∧ p.context.length = 0))
    (hst : tw.value = WState.ready)
    (hrel : env.relay = .frame flags options payloadBytes)
    (hflag : flags &&& ERROR ≠ 0)
    (hopts : options.length ≠ 1) :
    (Exec tw p env).result = .error [.softJob payloadBytes]
    ∧ (Exec tw p env).result ≠ .error [.decode] := by
  have hE : execPayload p env.relay = .error [.softJob payloadBytes] := by
    rw [hrel]; simp only [execPayload]; rw [if_pos hflag]
  rw [Exec_err_soft tw p env [.softJob payloadBytes] hb hst hE rfl]
  exact ⟨rfl, by simp⟩

/-- C10 witness: an ERROR-flagged frame with zero options returns the
SoftJob error `[9, 9]`, not a Decode error. -/
theorem C10_witness :
    (Exec ⟨WState.ready, 0, 0⟩ ⟨[1], [], 0⟩
        ⟨7, RelayResult.frame 64 [] [9, 9], none⟩).result
      = Except.error [ErrAtom.softJob [9, 9]]
    ∧ (Exec ⟨WState.ready, 0, 0⟩ ⟨[1], [], 0⟩
        ⟨7, RelayResult.frame 64 [] [9, 9], none⟩).result
      ≠ Except.error [ErrAtom.decode] :=
  C10_error_before_options ⟨WState.ready, 0, 0⟩ ⟨[1], [], 0⟩
    ⟨7, RelayResult.frame 64 [] [9, 9], none⟩ 64 [] [9, 9]
    (by decide) rfl rfl (by decide) (by decide)

end Roadrunner
